import Mathlib

/-!
Shallow embedding of the `heroku-agentforce-mcp` repository (the unified
client/server of `project_2`) and proofs about it.

Conventions of the embedding:
* TypeScript values that may be `undefined`/`null` become `Option`.
* JavaScript falsiness of strings (`""` is falsy) and numbers (`0` is falsy)
  is modelled explicitly where the source relies on it (`x || fallback`,
  `if (!x)`).
* `async` network calls that may reject become `Except`-valued oracles that
  are passed in as parameters (the stubbed adapter of the spec's test
  scenarios); calls that the source converts to `null` on failure
  (`makeNWSRequest`) become `Option`-valued oracles.
* Coordinates reach the handlers only through their decimal string rendering
  (template literals), so they are modelled by that rendered string.
-/

namespace Spec2Proof

/-- JS fallback `v || fallback` for an optional string: the fallback is used
when the value is missing or is the empty string (both falsy in JS). -/
def orFalsy (v : Option String) (fallback : String) : String :=
  match v with
  | none => fallback
  | some s => if s = "" then fallback else s

/-- JS fallback `v || fallback` for an optional number: `0` is falsy in JS,
so both a missing value and `0` yield the fallback string. -/
def orFalsyInt (v : Option Int) (fallback : String) : String :=
  match v with
  | none => fallback
  | some n => if n = 0 then fallback else toString n

/-- JS truthiness of an optional string (`undefined` and `""` are falsy). -/
def jsTruthy (v : Option String) : Bool :=
  match v with
  | none => false
  | some s => s ≠ ""

/-- JS `s.split(" ")` over the character list: splits at every single space,
keeping empty fields, and yields `[""]` on the empty string. Defined by
structural recursion so concrete instances evaluate in the kernel. -/
def splitOnSpaceChars : List Char → List (List Char)
  | [] => [[]]
  | c :: rest =>
    let r := splitOnSpaceChars rest
    if c = ' ' then [] :: r
    else (c :: r.headD []) :: r.tail

/-- JS `s.split(" ")` as a string function. -/
def jsSplitSpace (s : String) : List String :=
  (splitOnSpaceChars s.data).map fun cs => String.mk cs

/-- ASCII uppercase of one character (the source only uppercases two-letter
state codes). -/
def charUpper (c : Char) : Char :=
  if 'a' ≤ c ∧ c ≤ 'z' then Char.ofNat (c.toNat - 32) else c

/-- ASCII lowercase of one character. -/
def charLower (c : Char) : Char :=
  if 'A' ≤ c ∧ c ≤ 'Z' then Char.ofNat (c.toNat + 32) else c

/-- JS `s.toUpperCase()` restricted to ASCII. -/
def jsToUpper (s : String) : String :=
  String.mk (s.data.map charUpper)

/-- JS `s.toLowerCase()` restricted to ASCII. -/
def jsToLower (s : String) : String :=
  String.mk (s.data.map charLower)

/-- Whether the list starts with the given pattern. -/
def matchesAt : List Char → List Char → Bool
  | [], _ => true
  | _ :: _, [] => false
  | p :: ps, c :: cs => p = c && matchesAt ps cs

/-- JS `s.includes(pat)`: the pattern occurs as a contiguous subsequence. -/
def containsSeq (pat : List Char) : List Char → Bool
  | [] => matchesAt pat []
  | c :: cs => matchesAt pat (c :: cs) || containsSeq pat cs

/-! ### Bearer-token middleware (`server/src/middleware/middleware.ts`) -/

/-- Outcome of the Express middleware: 401 response, 403 response, or the
call to `next()`. -/
inductive MwResult
  | unauthorized
  | forbidden
  | nextCalled
deriving DecidableEq, Repr

/-- Embeds `const token = authHeader && authHeader.split(" ")[1]` — the
second space-separated field of the Authorization header, when there is
one. -/
def extractToken (authHeader : Option String) : Option String :=
  match authHeader with
  | none => none
  | some h => (jsSplitSpace h).get? 1

/-- Embeds `middleware` from `middleware.ts`: reject 401 when the extracted
token is JS-falsy, 403 when it differs from the configured secret, and call
`next()` on an exact match. -/
def middleware (secret : String) (authHeader : Option String) : MwResult :=
  let token := extractToken authHeader
  if ¬ jsTruthy token then
    .unauthorized
  else if token ≠ some secret then
    .forbidden
  else
    .nextCalled

/-! ### NWS weather tool handlers (`server/src/utils/UnifiedMCPServer.ts`) -/

/-- Properties of one NWS alert feature (all fields may be absent). -/
structure AlertProps where
  event : Option String
  areaDesc : Option String
  severity : Option String
  status : Option String
  headline : Option String
deriving DecidableEq, Repr

/-- One NWS alert feature. -/
structure AlertFeature where
  properties : AlertProps
deriving DecidableEq, Repr

/-- NWS alerts response; `features` may be absent. -/
structure AlertsResponse where
  features : Option (List AlertFeature)
deriving DecidableEq, Repr

/-- Embeds `formatAlert` from `helpers.ts`. -/
def formatAlert (feature : AlertFeature) : String :=
  let props := feature.properties
  String.intercalate "\n"
    [ "Event: " ++ orFalsy props.event "Unknown",
      "Area: " ++ orFalsy props.areaDesc "Unknown",
      "Severity: " ++ orFalsy props.severity "Unknown",
      "Status: " ++ orFalsy props.status "Unknown",
      "Headline: " ++ orFalsy props.headline "No headline",
      "---" ]

/-- Embeds the `get-alerts` tool handler of `unifiedMCPServer`. The
`makeNWSRequest` adapter is an oracle from URL to `Option` response
(the source adapter returns `null` on any failure, never throws). The
result is the list of text content blocks. -/
def getAlertsHandler (makeNWSRequest : String → Option AlertsResponse)
    (state : String) : List String :=
  let stateCode := jsToUpper state
  let alertsUrl := "alerts?area=" ++ stateCode
  match makeNWSRequest alertsUrl with
  | none => ["Failed to retrieve weather alerts for state: " ++ stateCode]
  | some alertsData =>
    let alerts := alertsData.features.getD []
    if alerts.length = 0 then
      ["No active weather alerts for " ++ stateCode]
    else
      let formattedAlerts := alerts.map formatAlert
      ["Active Weather Alerts for " ++ stateCode ++ ":\n\n" ++
        String.intercalate "\n\n" formattedAlerts]

/-- One NWS forecast period (temperature `0` is falsy in the source's
template, hence `Option Int` with explicit falsiness). -/
structure ForecastPeriod where
  name : Option String
  temperature : Option Int
  temperatureUnit : Option String
  windSpeed : Option String
  windDirection : Option String
  shortForecast : Option String
deriving DecidableEq, Repr

/-- Duck-typed `properties` object of an NWS response: the grid-point call
reads `forecast`, the forecast call reads `periods`. -/
structure NWSProps where
  forecast : Option String
  periods : Option (List ForecastPeriod)
deriving DecidableEq, Repr

/-- Duck-typed NWS response body for the forecast handler's two calls. -/
structure NWSResponse where
  properties : Option NWSProps
deriving DecidableEq, Repr

/-- Embeds the per-period formatting inside the `get-forecast` handler. -/
def formatPeriod (period : ForecastPeriod) : String :=
  String.intercalate "\n"
    [ orFalsy period.name "Unknown" ++ ":",
      "Temperature: " ++ orFalsyInt period.temperature "Unknown" ++ "°" ++
        orFalsy period.temperatureUnit "F",
      "Wind: " ++ orFalsy period.windSpeed "Unknown" ++ " " ++
        orFalsy period.windDirection "",
      orFalsy period.shortForecast "No forecast available",
      "---" ]

/-- Embeds the `get-forecast` tool handler of `unifiedMCPServer`. Returns
the text content blocks together with the list of URLs passed to the
adapter, in call order, so that the number of adapter calls is observable. -/
def getForecastHandler (makeNWSRequest : String → Option NWSResponse)
    (latitude longitude : String) : List String × List String :=
  let pointsUrl := "points/" ++ latitude ++ "," ++ longitude
  match makeNWSRequest pointsUrl with
  | none =>
    (["Failed to retrieve grid point data for coordinates: " ++ latitude ++
       ", " ++ longitude ++
       ". This location may not be supported by the NWS API (only US locations are supported)."],
     [pointsUrl])
  | some pointsData =>
    let forecastUrl := pointsData.properties.bind (·.forecast)
    if ¬ jsTruthy forecastUrl then
      (["Failed to get forecast URL from grid point data"], [pointsUrl])
    else
      let fu := forecastUrl.getD ""
      match makeNWSRequest fu with
      | none => (["Failed to retrieve forecast data"], [pointsUrl, fu])
      | some forecastData =>
        let periods := (forecastData.properties.bind (·.periods)).getD []
        if periods.length = 0 then
          (["No forecast periods available"], [pointsUrl, fu])
        else
          let formattedForecast := periods.map formatPeriod
          (["Forecast for " ++ latitude ++ ", " ++ longitude ++ ":\n\n" ++
             String.intercalate "\n" formattedForecast],
           [pointsUrl, fu])

/-! ### Transport-gated registration (`unifiedMCPServer`) -/

/-- Registered surface of one `McpServer` instance: tool names in
registration order, registered resources as (name, uri) pairs, and prompt
names. Handlers are modelled separately (`getAlertsHandler`,
`getForecastHandler`). -/
structure MCPServerModel where
  toolNames : List String
  resourceRegs : List (String × String)
  promptNames : List String
deriving DecidableEq, Repr

/-- Embeds `unifiedMCPServer(transportType)` from
`server/src/utils/UnifiedMCPServer.ts`: US tools are registered only under
`transportType === "SSE"`, the static dataset resource and the three
Canadian tools only under `transportType === "HTTP"`, and the
`weather-assistant` prompt unconditionally, in source order. -/
def unifiedMCPServer (transportType : String) : MCPServerModel :=
  let usTools := if transportType = "SSE" then ["get-alerts", "get-forecast"] else []
  let resources :=
    if transportType = "HTTP" then [("weather-data", "file:///data.json")] else []
  let prompts := ["weather-assistant"]
  let canadaTools :=
    if transportType = "HTTP" then
      ["get-canada-current-weather", "get-canada-forecast", "search-canada-locations"]
    else []
  { toolNames := usTools ++ canadaTools
    resourceRegs := resources
    promptNames := prompts }

/-! ### Unified client aggregator (`client/src/utils/UnifiedMCPClient.ts`) -/

/-- One tool as reported by a server's `listTools` (mapped in `initialize`
to `{ name, description, input_schema }`; the schema is an opaque token). -/
structure SrcTool where
  name : String
  description : Option String
  schema : Nat
deriving DecidableEq, Repr

/-- One resource as reported by a server's `listResources` (all fields may
be absent, see the `||` fallbacks in `initialize`). -/
structure SrcResource where
  name : Option String
  description : Option String
  uri : String
deriving DecidableEq, Repr

/-- One prompt as reported by `listPrompts` (only the name is used). -/
structure Prompt where
  name : String
deriving DecidableEq, Repr

/-- One message of a `getPrompt` response; `content` is a text block
(`some` text) or a non-text block (`none`, rendered as `""` by the
source's `content.type === "text" ? content.text : ""`). -/
structure PromptMessage where
  role : String
  text : Option String
deriving DecidableEq, Repr

/-- One item of `content.contents` of a `readResource` response; `text`
may be absent or non-string (`none`). -/
structure ResourceContentItem where
  text : Option String
deriving DecidableEq, Repr

/-- A `readResource` response. -/
structure ResourceContent where
  contents : List ResourceContentItem
deriving DecidableEq, Repr

/-- Result content of `callTool`: either an array of content items, each
already rendered to the text the source maps it to (`item.text` for text
items, `String(item)` otherwise), or a non-array value modelled by its
`String(result.content)` rendering. -/
inductive ToolContent
  | arr (items : List String)
  | other (s : String)
deriving DecidableEq, Repr

/-- One connected MCP client as seen by the aggregator. The `hasMcpClient`
flag embeds the `if (!mcpClient) break` guard of `initialize` (the getter
`BaseMCPClient.mcpClient` always returns the client constructed in the
constructor, so the flag is `true` for every real connection). Fallible
MCP round-trips are `Except`-valued; `listResources` errors carry the
JSON-RPC error code the source inspects. -/
structure ClientConn where
  identifier : String
  hasMcpClient : Bool
  listTools : Except Unit (List SrcTool)
  listResources : Except Int (List SrcResource)
  listPrompts : Except Unit (List Prompt)
  getPrompt : String → Except Unit (Option (List PromptMessage))
  readResource : String → Except Unit ResourceContent
  callTool : String → String → Except String ToolContent

/-- One entry of the aggregated tool catalog (`UnifiedTool` in
`types.ts`): the tool plus its source identifier and a back-reference to
the owning connection. -/
structure UnifiedTool where
  name : String
  description : String
  schema : Nat
  source : String
  client : ClientConn

/-- One entry of the aggregated resource catalog (`UnifiedResource`). -/
structure UnifiedResource where
  name : String
  description : String
  uri : String
  source : String
  client : ClientConn

/-- State of a `UnifiedMCPClient` instance: the configured connections and
the accumulated catalogs. -/
structure UnifiedMCPClient where
  clients : List ClientConn
  unifiedTools : List UnifiedTool
  unifiedResources : List UnifiedResource

/-- Embeds the `UnifiedMCPClient` constructor: catalogs start empty. -/
def UnifiedMCPClient.make (clients : List ClientConn) : UnifiedMCPClient :=
  { clients := clients, unifiedTools := [], unifiedResources := [] }

/-- Tags one connection's tool list for the catalog, applying the
`tool.description || "No description"` fallback of `initialize`. -/
def tagTools (c : ClientConn) (tools : List SrcTool) : List UnifiedTool :=
  tools.map fun tool =>
    { name := tool.name
      description := orFalsy tool.description "No description"
      schema := tool.schema
      source := c.identifier
      client := c }

/-- Tags one connection's resource list for the catalog, applying the
fallbacks `|| "Unknown Resource"`, `|| "No description"`, `|| ""`. -/
def tagResources (c : ClientConn) (resources : List SrcResource) : List UnifiedResource :=
  resources.map fun resource =>
    { name := orFalsy resource.name "Unknown Resource"
      description := orFalsy resource.description "No description"
      uri := resource.uri
      source := c.identifier
      client := c }

/-- Embeds the connection loop of the source method the spec calls
`initialize()`: a falsy
`mcpClient` breaks the loop; an exception from `listTools` is caught
per-connection and the loop continues; an exception from `listResources`
is caught by the inner handler (logged, tools kept) and the loop
continues. -/
def initLoop : List ClientConn → List UnifiedTool × List UnifiedResource
  | [] => ([], [])
  | c :: rest =>
    if ¬ c.hasMcpClient then ([], [])
    else
      match c.listTools with
      | .error _ => initLoop rest
      | .ok tools =>
        (tagTools c tools ++ (initLoop rest).1,
         (match c.listResources with
          | .error _ => []
          | .ok resources => tagResources c resources) ++ (initLoop rest).2)

/-- Embeds the source method the spec calls `initialize()` (named
`initAll` here): appends the aggregated catalogs to the instance
state. -/
def UnifiedMCPClient.initAll (u : UnifiedMCPClient) : UnifiedMCPClient :=
  { u with unifiedTools := u.unifiedTools ++ (initLoop u.clients).1
           unifiedResources := u.unifiedResources ++ (initLoop u.clients).2 }

/-- Embeds `UnifiedMCPClient.getAllTools`. -/
def UnifiedMCPClient.getAllTools (u : UnifiedMCPClient) : List UnifiedTool :=
  u.unifiedTools

/-- Embeds `UnifiedMCPClient.getAllResources`. -/
def UnifiedMCPClient.getAllResources (u : UnifiedMCPClient) : List UnifiedResource :=
  u.unifiedResources

/-- Embeds the dispatch lookup of `processQuery`:
`this.unifiedTools.find((t) => t.name === toolName)`. -/
def lookupTool (unifiedTools : List UnifiedTool) (toolName : String) : Option UnifiedTool :=
  unifiedTools.find? fun t => t.name = toolName

/-! ### `processQuery` (`client/src/utils/UnifiedMCPClient.ts`) -/

/-- Parsed JSON value as used by the resource-discovery step: the source
only reads `Object.keys(resourceData)` and
`JSON.stringify(resourceData, null, 2)`, modelled by the key list and the
pretty rendering. -/
structure JsonData where
  keys : List String
  pretty : String
deriving DecidableEq, Repr

/-- One content block of a completion response: plain text or a tool-use
request (arguments are an opaque token). -/
inductive ContentBlock
  | text (t : String)
  | toolUse (id : String) (name : String) (input : String)
deriving DecidableEq, Repr

/-- One `tool_result` entry pushed back to the model. -/
structure ToolResultMsg where
  tool_use_id : String
  content : String
deriving DecidableEq, Repr

/-- Content of one working message: a plain string, the assistant's
response blocks, or the collected tool results. -/
inductive MsgContent
  | str (s : String)
  | blocks (bs : List ContentBlock)
  | results (rs : List ToolResultMsg)
deriving DecidableEq, Repr

/-- One working message (`MessageParam`). -/
structure Message where
  role : String
  content : MsgContent
deriving DecidableEq, Repr

/-- One tool as offered to the completion endpoint. -/
structure AnthTool where
  name : String
  description : String
  schema : Nat
deriving DecidableEq, Repr

/-- The completion endpoint (`anthropic.messages.create`) as an oracle:
messages plus an optional tool list (the second call passes no tools) to a
fallible block list. -/
abbrev CompleteOracle :=
  List Message → Option (List AnthTool) → Except Unit (List ContentBlock)

/-- JS template rendering of an optional string; `undefined` renders as
the string `"undefined"`. -/
def jsRender (v : Option String) : String :=
  match v with
  | none => "undefined"
  | some s => s

/-- Embeds the body of the prompt-discovery `for` loop of `processQuery`.
Every branch of the source loop body ends in `break`, so the tail of the
connection list is never consulted (hence the wildcard): an empty prompt
list breaks, a falsy `getPrompt` response breaks, and a successful response
pushes its messages and breaks. Exceptions propagate to the surrounding
`catch`. -/
def promptDiscoveryLoop : List ClientConn → Except Unit (List Message)
  | [] => .ok []
  | c :: _ =>
    match c.listPrompts with
    | .error e => .error e
    | .ok prompts =>
      match prompts with
      | [] => .ok []
      | prompt :: _ =>
        match c.getPrompt prompt.name with
        | .error e => .error e
        | .ok none => .ok []
        | .ok (some msgs) =>
          .ok (msgs.map fun pm => { role := pm.role, content := .str (pm.text.getD "") })

/-- Embeds the prompt-discovery step with its surrounding `try`/`catch`:
a caught exception leaves the working messages untouched. -/
def promptDiscovery (clients : List ClientConn) : List Message :=
  match promptDiscoveryLoop clients with
  | .ok msgs => msgs
  | .error _ => []

/-- Rendering of a message content in a template literal; in `processQuery`
the modified message is always the just-pushed user query, a string. -/
def msgContentText : MsgContent → String
  | .str s => s
  | _ => ""

/-- Embeds `workingMessages[workingMessages.length - 1].content = ...`:
the last message's content is replaced by its rendering plus the extra
text. The empty case is unreachable (the user query was pushed first). -/
def appendToLast (wm : List Message) (extra : String) : List Message :=
  match wm.getLast? with
  | none => wm
  | some last =>
    wm.dropLast ++ [{ last with content := .str (msgContentText last.content ++ extra) }]

/-- The `resourceInfo` template of the resource-discovery step. -/
def resourceInfoText (resourceName : String) (identifier : String) (data : JsonData) : String :=
  "Available data from MCP server (" ++ resourceName ++ ") on " ++ identifier ++ ":\n" ++
    String.intercalate "\n" (data.keys.map fun key => "- " ++ key)

/-- Outcome of one iteration of the resource-discovery loop body: `break`
left the messages unchanged and stopped, a caught exception continued with
the next connection, or a success rewrote the messages and stopped. -/
inductive LoopStep
  | broke
  | continued
  | done (wm : List Message)
deriving Repr

/-- Embeds one iteration of the resource-discovery loop body of
`processQuery`, including its inner `try`/`catch` (every thrown error is
caught and the loop continues): an absent-or-empty resource list breaks,
no resource whose lowercased URI contains `data.json` breaks, empty
`contents` breaks, and a parsed resource rewrites the last working
message. `JSON.parse` is the `jsonParse` oracle. -/
def resourceTryBody (jsonParse : String → Except Unit JsonData) (c : ClientConn)
    (wm : List Message) : LoopStep :=
  match c.listResources with
  | .error _ => .continued
  | .ok resources =>
    if resources.length = 0 then .broke
    else
      match resources.find? (fun r => containsSeq "data.json".data (jsToLower r.uri).data) with
      | none => .broke
      | some dataResource =>
        match c.readResource dataResource.uri with
        | .error _ => .continued
        | .ok content =>
          match content.contents with
          | [] => .broke
          | first :: _ =>
            match jsonParse (first.text.getD "") with
            | .error _ => .continued
            | .ok resourceData =>
              .done (appendToLast wm
                ("\n\n" ++ resourceInfoText (jsRender dataResource.name) c.identifier resourceData ++
                  "\n\nFull data:\n" ++ resourceData.pretty))

/-- Embeds the resource-discovery `for` loop of `processQuery` (the outer
`catch` is unreachable: the inner handler catches every error). -/
def resourceLoop (jsonParse : String → Except Unit JsonData) :
    List ClientConn → List Message → List Message
  | [], wm => wm
  | c :: rest, wm =>
    match resourceTryBody jsonParse c wm with
    | .broke => wm
    | .continued => resourceLoop jsonParse rest wm
    | .done wm2 => wm2

/-- Working messages right before the first completion call: discovered
prompt messages, then the user query, then the resource-discovery
rewriting. -/
def preMessages (jsonParse : String → Except Unit JsonData) (clients : List ClientConn)
    (query : String) : List Message :=
  resourceLoop jsonParse clients
    (promptDiscovery clients ++ [{ role := "user", content := .str query }])

/-- Embeds the tool mapping sent to the first completion call:
`description` gets the `" (from ...)"` suffix. -/
def toAnthTools (unifiedTools : List UnifiedTool) : List AnthTool :=
  unifiedTools.map fun tool =>
    { name := tool.name
      description := tool.description ++ " (from " ++ tool.source ++ ")"
      schema := tool.schema }

/-- The text blocks of a completion response, in order. -/
def textSegments (content : List ContentBlock) : List String :=
  content.filterMap fun b =>
    match b with
    | .text t => some t
    | _ => none

/-- The tool-use blocks of a completion response, in order, as
(id, name, input) triples. -/
def toolUses (content : List ContentBlock) : List (String × String × String) :=
  content.filterMap fun b =>
    match b with
    | .toolUse id n input => some (id, n, input)
    | _ => none

/-- Embeds the rendering of a `callTool` result: array contents joined by
newlines (each item already rendered to its text or `String(item)` form),
a non-array stringified. -/
def toolResultText : ToolContent → String
  | .arr items => String.intercalate "\n" items
  | .other s => s

/-- Embeds one iteration of the tool-dispatch loop of `processQuery`: an
unknown tool name yields an error `tool_result` (logged, loop continues),
a thrown `callTool` is caught into an error `tool_result`, and a result is
rendered by `toolResultText`. -/
def dispatchOne (unifiedTools : List UnifiedTool) (tc : String × String × String) :
    ToolResultMsg :=
  match lookupTool unifiedTools tc.2.1 with
  | none => { tool_use_id := tc.1, content := "Error: Tool " ++ tc.2.1 ++ " not found" }
  | some unifiedTool =>
    match unifiedTool.client.callTool tc.2.1 tc.2.2 with
    | .error toolError =>
      { tool_use_id := tc.1, content := "Error calling tool " ++ tc.2.1 ++ ": " ++ toolError }
    | .ok result => { tool_use_id := tc.1, content := toolResultText result }

/-- Working messages for the second completion call: the first response as
an assistant message, then the tool results as a user message. -/
def secondMessages (unifiedTools : List UnifiedTool) (wm : List Message)
    (blocks : List ContentBlock) : List Message :=
  wm ++ [{ role := "assistant", content := .blocks blocks },
         { role := "user",
           content := .results ((toolUses blocks).map (dispatchOne unifiedTools)) }]

/-- The fixed user-facing apology returned by the top-level `catch` of
`processQuery`. -/
def apologyString : String :=
  "Sorry, I encountered an error while processing your query."

/-- Embeds the main `try` block of `processQuery`: first completion call
with the merged tool catalog; without tool calls, the joined text; with
tool calls, dispatch then a second completion call without tools; any
completion failure is caught into the apology string. -/
def mainBlock (complete : CompleteOracle) (u : UnifiedMCPClient) (wm : List Message) :
    String :=
  match complete wm (some (toAnthTools u.unifiedTools)) with
  | .error _ => apologyString
  | .ok blocks =>
    let finalText := textSegments blocks
    if (toolUses blocks).length = 0 then
      String.intercalate "\n" finalText
    else
      match complete (secondMessages u.unifiedTools wm blocks) none with
      | .error _ => apologyString
      | .ok blocks2 => String.intercalate "\n" (finalText ++ textSegments blocks2)

/-- Embeds `UnifiedMCPClient.processQuery`: prompt discovery, user query,
resource discovery, then the main completion/dispatch block. -/
def UnifiedMCPClient.processQuery (u : UnifiedMCPClient) (complete : CompleteOracle)
    (jsonParse : String → Except Unit JsonData) (query : String) : String :=
  mainBlock complete u (preMessages jsonParse u.clients query)

/-! ### Transport session stores (`server/src/index.ts` and the
controllers): session id to live transport object, the transport modelled
by an identity token. -/

/-- A session store: association list from session id to transport
identity. -/
abbrev TransportStore := List (String × Nat)

/-- JS record/`Map` assignment `store[sid] = t`: replaces the existing
binding for the key or appends a new one. -/
def recordSet (store : TransportStore) (sid : String) (t : Nat) : TransportStore :=
  match store with
  | [] => [(sid, t)]
  | (k, v) :: rest => if k = sid then (sid, t) :: rest else (k, v) :: recordSet rest sid t

/-- JS `delete store[sid]` / `Map.delete`. -/
def eraseKey (store : TransportStore) (sid : String) : TransportStore :=
  store.filter fun kv => kv.1 ≠ sid

/-- JS `store[sid]` / `Map.get` lookup. -/
def lookupSid (store : TransportStore) (sid : String) : Option Nat :=
  (store.find? fun kv => kv.1 = sid).map (·.2)

/-- The session ids bound in a store. -/
def storeKeys (store : TransportStore) : List String :=
  store.map Prod.fst

/-- Outcome of the SSE `POST /messages` handler. -/
inductive SseMsgResult
  | status400
  | status404
  | handled (t : Nat)
deriving DecidableEq, Repr

/-- Embeds the `POST /messages` handler (`messages` in `SSEFunction.ts` /
`index.ts`): missing or empty `sessionId` query parameter gives 400, an
unknown id gives 404, a known id hands the request to the stored
transport. The store is never mutated. -/
def handleMessages (store : TransportStore) (sessionId : String) :
    TransportStore × SseMsgResult :=
  if sessionId = "" then (store, .status400)
  else
    match lookupSid store sessionId with
    | none => (store, .status404)
    | some t => (store, .handled t)

/-- Outcome of the Streamable HTTP `POST /http` handler: reuse of the
stored transport, creation and registration of a new transport, or a 400
rejection. -/
inductive HttpResult
  | reused (t : Nat)
  | created (t : Nat)
  | badRequest400
deriving DecidableEq, Repr

/-- Embeds `HTTPFunction` (`POST /http`): a truthy `Mcp-Session-Id` header
bound in the store reuses that transport; no session id on an `initialize`
body constructs a fresh transport which `onsessioninitialized` registers
under the freshly generated id; anything else — including a truthy but
unknown session id — is rejected with 400 and constructs nothing. The
missing or empty header is modelled by `""` (both are JS-falsy). -/
def handleHttp (store : TransportStore) (sessionId : String) (isInit : Bool)
    (freshId : String) (freshT : Nat) : TransportStore × HttpResult :=
  if sessionId ≠ "" then
    match lookupSid store sessionId with
    | some t => (store, .reused t)
    | none => (store, .badRequest400)
  else if isInit then
    (recordSet store freshId freshT, .created freshT)
  else
    (store, .badRequest400)

/-- Events mutating the Streamable HTTP store: a `POST /http` request or a
transport `onclose` callback. -/
inductive HttpEvent
  | request (sessionId : String) (isInit : Bool) (freshId : String) (freshT : Nat)
  | closeTransport (sid : String)

/-- Transition of the Streamable HTTP store. -/
def httpStep (store : TransportStore) : HttpEvent → TransportStore
  | .request sessionId isInit freshId freshT =>
    (handleHttp store sessionId isInit freshId freshT).1
  | .closeTransport sid => eraseKey store sid

/-- Reachable states of the Streamable HTTP store, starting from the empty
module-level map. -/
inductive HttpReachable : TransportStore → Prop
  | init : HttpReachable []
  | step (s : TransportStore) (e : HttpEvent) : HttpReachable s → HttpReachable (httpStep s e)

/-- Events mutating the SSE store: a `GET /sse` connection (fresh transport
stored under its session id), a `POST /messages` request, or a transport
`onclose` callback. -/
inductive SseEvent
  | connect (sid : String) (t : Nat)
  | postMessage (sessionId : String)
  | closeTransport (sid : String)

/-- Transition of the SSE store. -/
def sseStep (store : TransportStore) : SseEvent → TransportStore
  | .connect sid t => recordSet store sid t
  | .postMessage sessionId => (handleMessages store sessionId).1
  | .closeTransport sid => eraseKey store sid

/-- Reachable states of the SSE store. -/
inductive SseReachable : TransportStore → Prop
  | init : SseReachable []
  | step (s : TransportStore) (e : SseEvent) : SseReachable s → SseReachable (sseStep s e)

/-! ### Concrete stub connections and oracles used by witnesses and
counterexamples -/

/-- A stub connection with inert defaults; the scenarios below override
individual fields. -/
def baseConn (id : String) : ClientConn :=
  { identifier := id
    hasMcpClient := true
    listTools := .ok []
    listResources := .error (-32601)
    listPrompts := .ok []
    getPrompt := fun _ => .ok none
    readResource := fun _ => .error ()
    callTool := fun _ _ => .error "not implemented" }

/-- First connection of the duplicate-tool-name scenario. -/
def dupConnA : ClientConn :=
  { baseConn "A" with
    listTools := .ok [{ name := "dup-tool", description := some "first copy", schema := 1 }]
    callTool := fun _ _ => .ok (.arr ["result from A"]) }

/-- Second connection of the duplicate-tool-name scenario. -/
def dupConnB : ClientConn :=
  { baseConn "B" with
    listTools := .ok [{ name := "dup-tool", description := some "second copy", schema := 2 }]
    callTool := fun _ _ => .ok (.arr ["result from B"]) }

/-- Aggregated catalog of the duplicate-tool-name scenario. -/
def dupCatalog : List UnifiedTool :=
  ((UnifiedMCPClient.make [dupConnA, dupConnB]).initAll).getAllTools

/-- Connection exposing one tool (the spec's scenario C `srv1`). -/
def aggConnOne : ClientConn :=
  { baseConn "srv1" with
    listTools := .ok [{ name := "get-alerts", description := some "US alerts", schema := 3 }] }

/-- Connection exposing no tools (the spec's scenario C `srv2`). -/
def aggConnTwo : ClientConn :=
  baseConn "srv2"

/-- Connection whose `listTools` throws. -/
def aggFailConn : ClientConn :=
  { baseConn "bad" with listTools := .error () }

/-- Per-connection tool list read back from the stubs. -/
def aggToolsOf (c : ClientConn) : List SrcTool :=
  match c.listTools with
  | .ok ts => ts
  | .error _ => []

/-- Connection with an empty prompt list. -/
def quietConn : ClientConn :=
  baseConn "first"

/-- Connection exposing one prompt with one assistant message. -/
def promptConn : ClientConn :=
  { baseConn "second" with
    listPrompts := .ok [{ name := "weather-assistant" }]
    getPrompt := fun _ =>
      .ok (some [{ role := "assistant", text := some "You are a helpful weather assistant." }]) }

/-- Completion oracle that issues a tool call for an unregistered tool on
the first (tool-offering) call and answers plainly on the second. -/
def ghostToolOracle : CompleteOracle := fun _ tools =>
  match tools with
  | some _ => .ok [.toolUse "id1" "ghost" "input"]
  | none => .ok [.text "all good"]

/-! ## Supporting lemmas -/

theorem tagTools_source (c : ClientConn) (ts : List SrcTool) :
    ∀ t ∈ tagTools c ts, t.source = c.identifier := by
  intro t ht
  simp only [tagTools, List.mem_map] at ht
  obtain ⟨tool, _, rfl⟩ := ht
  rfl

theorem exists_name_in_tagTools (c : ClientConn) (ts : List SrcTool) (n : String)
    (h : n ∈ ts.map SrcTool.name) :
    ∃ t ∈ tagTools c ts, t.name = n ∧ t.source = c.identifier := by
  simp only [List.mem_map] at h
  obtain ⟨tool, htool, rfl⟩ := h
  exact ⟨_, List.mem_map_of_mem _ htool, rfl, rfl⟩

theorem initLoop_cons_ok (c : ClientConn) (rest : List ClientConn) (ts : List SrcTool)
    (hc : c.hasMcpClient = true) (ht : c.listTools = .ok ts) :
    (initLoop (c :: rest)).1 = tagTools c ts ++ (initLoop rest).1 := by
  simp only [initLoop, hc, ht]
  simp

theorem initLoop_cons_err (c : ClientConn) (rest : List ClientConn)
    (hc : c.hasMcpClient = true) (ht : c.listTools = .error ()) :
    initLoop (c :: rest) = initLoop rest := by
  simp only [initLoop, hc, ht]
  simp

theorem getAllTools_initAll_make (clients : List ClientConn) :
    ((UnifiedMCPClient.make clients).initAll).getAllTools = (initLoop clients).1 := by
  simp [UnifiedMCPClient.make, UnifiedMCPClient.initAll, UnifiedMCPClient.getAllTools]

theorem lookupTool_append (uts1 uts2 : List UnifiedTool) (n : String) :
    lookupTool (uts1 ++ uts2) n = (lookupTool uts1 n).or (lookupTool uts2 n) := by
  simp [lookupTool, List.find?_append]

theorem handleMessages_store (store : TransportStore) (sessionId : String) :
    (handleMessages store sessionId).1 = store := by
  unfold handleMessages
  split
  · rfl
  · split <;> rfl

theorem mem_storeKeys_recordSet (store : TransportStore) (sid : String) (t : Nat)
    (x : String) (hx : x ∈ storeKeys (recordSet store sid t)) :
    x ∈ storeKeys store ∨ x = sid := by
  induction store with
  | nil =>
    simp [recordSet, storeKeys] at hx
    exact Or.inr hx
  | cons kv rest ih =>
    by_cases hk : kv.1 = sid
    · simp only [recordSet, hk, if_pos rfl] at hx
      rcases List.mem_cons.mp hx with h | h
      · exact Or.inr h
      · exact Or.inl (List.mem_cons.mpr (Or.inr h))
    · rw [recordSet] at hx
      rw [if_neg hk] at hx
      rcases List.mem_cons.mp hx with h | h
      · exact Or.inl (List.mem_cons.mpr (Or.inl h))
      · rcases ih h with h2 | h2
        · exact Or.inl (List.mem_cons.mpr (Or.inr h2))
        · exact Or.inr h2

theorem nodup_recordSet (store : TransportStore) (sid : String) (t : Nat)
    (h : (storeKeys store).Nodup) : (storeKeys (recordSet store sid t)).Nodup := by
  induction store with
  | nil => simp [recordSet, storeKeys]
  | cons kv rest ih =>
    rw [storeKeys, List.map_cons, List.nodup_cons] at h
    by_cases hk : kv.1 = sid
    · rw [recordSet, if_pos hk]
      rw [storeKeys, List.map_cons, List.nodup_cons]
      exact ⟨by rw [← hk]; exact h.1, h.2⟩
    · rw [recordSet, if_neg hk]
      rw [storeKeys, List.map_cons, List.nodup_cons]
      refine ⟨fun hmem => ?_, ih h.2⟩
      rcases mem_storeKeys_recordSet rest sid t kv.1 hmem with h2 | h2
      · exact h.1 h2
      · exact hk h2

theorem nodup_eraseKey (store : TransportStore) (sid : String)
    (h : (storeKeys store).Nodup) : (storeKeys (eraseKey store sid)).Nodup := by
  have hsub : List.Sublist (eraseKey store sid) store := List.filter_sublist store
  exact h.sublist (hsub.map Prod.fst)

theorem handleHttp_store_cases (store : TransportStore) (sessionId : String)
    (isInit : Bool) (freshId : String) (freshT : Nat) :
    (handleHttp store sessionId isInit freshId freshT).1 = store ∨
    (handleHttp store sessionId isInit freshId freshT).1 = recordSet store freshId freshT := by
  unfold handleHttp
  split
  · split <;> exact Or.inl rfl
  · split
    · exact Or.inr rfl
    · exact Or.inl rfl

theorem initLoop_fst_all_ok (toolsOf : ClientConn → List SrcTool) :
    ∀ clients : List ClientConn,
    (∀ c ∈ clients, c.hasMcpClient = true) →
    (∀ c ∈ clients, c.listTools = .ok (toolsOf c)) →
    (initLoop clients).1 = clients.flatMap fun c => tagTools c (toolsOf c) := by
  intro clients
  induction clients with
  | nil => intro _ _; simp [initLoop]
  | cons c rest ih =>
    intro hmcp hok
    rw [initLoop_cons_ok c rest (toolsOf c) (hmcp c (by simp)) (hok c (by simp))]
    rw [ih (fun x hx => hmcp x (by simp [hx])) (fun x hx => hok x (by simp [hx]))]
    simp

/-! ## Claims -/

/-- C7: tool and resource registration is a function of `transportType`
alone: the SSE instance registers exactly the US tools and no Canadian
tool or resource; the HTTP instance registers exactly the three Canadian
tools plus the `weather-data` (`file:///data.json`) resource and no US
tool. -/
theorem c7_transport_gated_registration :
    (unifiedMCPServer "SSE").toolNames = ["get-alerts", "get-forecast"] ∧
    (unifiedMCPServer "SSE").resourceRegs = [] ∧
    (unifiedMCPServer "HTTP").toolNames =
      ["get-canada-current-weather", "get-canada-forecast", "search-canada-locations"] ∧
    (unifiedMCPServer "HTTP").resourceRegs = [("weather-data", "file:///data.json")] ∧
    ((unifiedMCPServer "SSE").toolNames.all
      (fun n => !(unifiedMCPServer "HTTP").toolNames.contains n)) = true ∧
    ((unifiedMCPServer "HTTP").toolNames.all
      (fun n => !(unifiedMCPServer "SSE").toolNames.contains n)) = true :=
  ⟨rfl, rfl, rfl, rfl, by decide, by decide⟩

/-- C8: for every state code the `get-alerts` handler returns exactly one
text block and never throws: the failed-to-retrieve message when the
adapter returns `null`, exactly `"No active weather alerts for XX"` when
the adapter returns zero features, and the formatted alert list
otherwise. -/
theorem c8_get_alerts_total (makeNWSRequest : String → Option AlertsResponse)
    (state : String) :
    (getAlertsHandler makeNWSRequest state).length = 1 ∧
    (makeNWSRequest ("alerts?area=" ++ jsToUpper state) = none →
      getAlertsHandler makeNWSRequest state =
        ["Failed to retrieve weather alerts for state: " ++ jsToUpper state]) ∧
    (∀ r, makeNWSRequest ("alerts?area=" ++ jsToUpper state) = some r →
      r.features.getD [] = [] →
      getAlertsHandler makeNWSRequest state =
        ["No active weather alerts for " ++ jsToUpper state]) ∧
    (∀ r feats, makeNWSRequest ("alerts?area=" ++ jsToUpper state) = some r →
      r.features.getD [] = feats → feats ≠ [] →
      getAlertsHandler makeNWSRequest state =
        ["Active Weather Alerts for " ++ jsToUpper state ++ ":\n\n" ++
          String.intercalate "\n\n" (feats.map formatAlert)]) := by
  refine ⟨?_, ?_, ?_, ?_⟩
  · cases h : makeNWSRequest ("alerts?area=" ++ jsToUpper state) with
    | none => simp [getAlertsHandler, h]
    | some r =>
      by_cases hf : r.features.getD [] = []
      · simp [getAlertsHandler, h, hf]
      · simp [getAlertsHandler, h, List.length_eq_zero, hf]
  · intro h
    simp [getAlertsHandler, h]
  · intro r h hf
    simp [getAlertsHandler, h, hf]
  · intro r feats h hf hne
    simp [getAlertsHandler, h, hf, List.length_eq_zero, hne]

/-- C8 witness: the spec's scenario A — state code `"CA"` with a stubbed
adapter returning zero alert features yields exactly
`"No active weather alerts for CA"`, plus the adapter-failure and
formatted branches at concrete inputs. -/
theorem c8_get_alerts_total_witness :
    getAlertsHandler (fun _ => some { features := some [] }) "CA" =
      ["No active weather alerts for CA"] ∧
    getAlertsHandler (fun _ => none) "CA" =
      ["Failed to retrieve weather alerts for state: CA"] :=
  ⟨(c8_get_alerts_total (fun _ => some { features := some [] }) "CA").2.2.1
      { features := some [] } rfl rfl,
   (c8_get_alerts_total (fun _ => none) "CA").2.1 rfl⟩

/-- C9: when the grid-point call returns data with no (JS-truthy) forecast
URL, the `get-forecast` handler outputs exactly the failed-forecast-URL
text block and the adapter is called only once — the second (forecast)
call is never made. -/
theorem c9_no_second_call (makeNWSRequest : String → Option NWSResponse)
    (latitude longitude : String) (d : NWSResponse)
    (h : makeNWSRequest ("points/" ++ latitude ++ "," ++ longitude) = some d)
    (hurl : jsTruthy (d.properties.bind NWSProps.forecast) = false) :
    getForecastHandler makeNWSRequest latitude longitude =
      (["Failed to get forecast URL from grid point data"],
       ["points/" ++ latitude ++ "," ++ longitude]) := by
  simp [getForecastHandler, h, hurl]

/-- C9 witness: the spec's scenario B — coordinates (47.6, -122.3) with a
stubbed grid-point adapter returning no forecast URL. -/
theorem c9_no_second_call_witness :
    getForecastHandler
      (fun _ => some { properties := some { forecast := none, periods := none } })
      "47.6" "-122.3" =
      (["Failed to get forecast URL from grid point data"], ["points/47.6,-122.3"]) :=
  c9_no_second_call
    (fun _ => some { properties := some { forecast := none, periods := none } })
    "47.6" "-122.3" { properties := some { forecast := none, periods := none } } rfl rfl

/-- C10: the middleware is a function of the second space-separated field
of the Authorization header only; a missing or empty extracted token —
including a header whose whole value is the secret with no scheme prefix —
gives 401, a present token different from the secret gives 403, and
`next()` is called exactly when the extracted token equals the (non-empty)
secret. -/
theorem c10_middleware (secret : String) (authHeader : Option String) :
    (∀ other : Option String, extractToken authHeader = extractToken other →
      middleware secret authHeader = middleware secret other) ∧
    (jsTruthy (extractToken authHeader) = false →
      middleware secret authHeader = .unauthorized) ∧
    (∀ t, extractToken authHeader = some t → t ≠ "" → t ≠ secret →
      middleware secret authHeader = .forbidden) ∧
    (middleware secret authHeader = .nextCalled ↔
      (extractToken authHeader = some secret ∧ secret ≠ "")) ∧
    ((jsSplitSpace secret).length = 1 → middleware secret (some secret) = .unauthorized) := by
  refine ⟨?_, ?_, ?_, ?_, ?_⟩
  · intro other heq
    simp only [middleware, heq]
  · intro h
    simp [middleware, h]
  · intro t ht hne hnsecret
    simp [middleware, ht, jsTruthy, hne, hnsecret]
  · constructor
    · intro h
      unfold middleware at h
      by_cases h1 : jsTruthy (extractToken authHeader) = false
      · simp [h1] at h
      · rw [Bool.not_eq_false] at h1
        rw [if_neg (by simp [h1])] at h
        by_cases h2 : extractToken authHeader = some secret
        · refine ⟨h2, ?_⟩
          cases hc : extractToken authHeader with
          | none => rw [hc] at h1; simp [jsTruthy] at h1
          | some t =>
            rw [hc] at h1 h2
            simp [jsTruthy] at h1
            intro hs
            rw [hs] at h2
            simp at h2
            exact h1 (by rw [h2])
        · rw [if_pos h2] at h
          cases h
    · rintro ⟨h1, h2⟩
      simp [middleware, h1, jsTruthy, h2]
  · intro h
    have hnone : extractToken (some secret) = none := by
      simp only [extractToken]
      exact List.get?_eq_none.mpr (by omega)
    simp [middleware, hnone, jsTruthy]

/-- C10 witness: with secret `"tok123"` — a scheme-less header whose whole
value is the secret gives 401, a wrong token gives 403, the exact token
calls `next()`. -/
theorem c10_middleware_witness :
    middleware "tok123" (some "tok123") = .unauthorized ∧
    middleware "tok123" (some "Bearer wrong") = .forbidden ∧
    middleware "tok123" (some "Bearer tok123") = .nextCalled :=
  ⟨(c10_middleware "tok123" (some "tok123")).2.2.2.2 rfl,
   (c10_middleware "tok123" (some "Bearer wrong")).2.2.1 "wrong" rfl (by decide) (by decide),
   (c10_middleware "tok123" (some "Bearer tok123")).2.2.2.1.mpr ⟨rfl, by decide⟩⟩

/-- C3: a request to a session endpoint carrying a non-empty session id
that is not in the corresponding store is rejected — 404 on the SSE
`POST /messages` and 400 on the Streamable HTTP `POST /http` — and the
store is unchanged: no session or transport is created. -/
theorem c3_unknown_session_rejected (store : TransportStore) (sid : String)
    (hne : sid ≠ "") (hunknown : lookupSid store sid = none) :
    handleMessages store sid = (store, .status404) ∧
    ∀ isInit freshId freshT,
      handleHttp store sid isInit freshId freshT = (store, .badRequest400) := by
  constructor
  · simp [handleMessages, hne, hunknown]
  · intro isInit freshId freshT
    simp [handleHttp, hne, hunknown]

/-- C3 witness: unknown session id `"ghost"` against a store holding
session `"known"`. -/
theorem c3_unknown_session_rejected_witness :
    handleMessages [("known", 5)] "ghost" = ([("known", 5)], .status404) ∧
    handleHttp [("known", 5)] "ghost" true "fresh" 9 = ([("known", 5)], .badRequest400) :=
  ⟨(c3_unknown_session_rejected [("known", 5)] "ghost" (by decide) rfl).1,
   (c3_unknown_session_rejected [("known", 5)] "ghost" (by decide) rfl).2 true "fresh" 9⟩

/-- C4: in every reachable state of the transport session stores each
session id is bound at most once; two sequential requests bearing the same
valid session id are handled by the identity-equal transport (the store
is unchanged and the same transport token is returned), and a second
transport is never constructed for an already-known session id. -/
theorem c4_one_transport_per_session :
    (∀ s, HttpReachable s → (storeKeys s).Nodup) ∧
    (∀ s, SseReachable s → (storeKeys s).Nodup) ∧
    (∀ (store : TransportStore) (sid : String) (t : Nat) (i1 i2 : Bool)
       (f1 f2 : String) (t1 t2 : Nat),
      sid ≠ "" → lookupSid store sid = some t →
      handleHttp store sid i1 f1 t1 = (store, .reused t) ∧
      handleHttp (handleHttp store sid i1 f1 t1).1 sid i2 f2 t2 = (store, .reused t)) ∧
    (∀ (store : TransportStore) (sid : String) (t : Nat),
      sid ≠ "" → lookupSid store sid = some t →
      handleMessages store sid = (store, .handled t) ∧
      handleMessages (handleMessages store sid).1 sid = (store, .handled t)) := by
  refine ⟨?_, ?_, ?_, ?_⟩
  · intro s hs
    induction hs with
    | init => simp [storeKeys]
    | step s e _ ih =>
      cases e with
      | request sessionId isInit freshId freshT =>
        show (storeKeys (handleHttp s sessionId isInit freshId freshT).1).Nodup
        rcases handleHttp_store_cases s sessionId isInit freshId freshT with h | h
        · rw [h]; exact ih
        · rw [h]; exact nodup_recordSet s freshId freshT ih
      | closeTransport sid => exact nodup_eraseKey s sid ih
  · intro s hs
    induction hs with
    | init => simp [storeKeys]
    | step s e _ ih =>
      cases e with
      | connect sid t => exact nodup_recordSet s sid t ih
      | postMessage sessionId =>
        show (storeKeys (handleMessages s sessionId).1).Nodup
        rw [handleMessages_store]; exact ih
      | closeTransport sid => exact nodup_eraseKey s sid ih
  · intro store sid t i1 i2 f1 f2 t1 t2 hne hl
    have h1 : handleHttp store sid i1 f1 t1 = (store, .reused t) := by
      simp [handleHttp, hne, hl]
    exact ⟨h1, by rw [h1]; simp [handleHttp, hne, hl]⟩
  · intro store sid t hne hl
    have h1 : handleMessages store sid = (store, .handled t) := by
      simp [handleMessages, hne, hl]
    exact ⟨h1, by rw [h1]; simp [handleMessages, hne, hl]⟩

/-- C4 witness: the store reached by one initializing request binds its
fresh session once; a bound session id is reused with the identical
transport token on both stores. -/
theorem c4_one_transport_per_session_witness :
    (storeKeys [("id1", 7)]).Nodup ∧
    handleHttp [("id1", 7)] "id1" false "f" 9 = ([("id1", 7)], .reused 7) ∧
    handleMessages [("sse1", 3)] "sse1" = ([("sse1", 3)], .handled 3) :=
  ⟨c4_one_transport_per_session.1 [("id1", 7)]
      (HttpReachable.step [] (HttpEvent.request "" true "id1" 7) HttpReachable.init),
   (c4_one_transport_per_session.2.2.1 [("id1", 7)] "id1" 7 false false "f" "g" 9 10
      (by decide) rfl).1,
   (c4_one_transport_per_session.2.2.2 [("sse1", 3)] "sse1" 3 (by decide) rfl).1⟩

/-- C1 counterexample: two connections both expose `dup-tool`. Both
entries are in the aggregated catalog, in registration order, but the
dispatch lookup of `processQuery` returns the FIRST registered entry
(source "A"), while the last registered entry has source "B" — so the
claim that the last one registered wins is false on this input. -/
theorem c1_counterexample :
    (dupCatalog.map fun t => (t.name, t.source)) =
      [("dup-tool", "A"), ("dup-tool", "B")] ∧
    ((lookupTool dupCatalog "dup-tool").map fun t => t.source) = some "A" ∧
    (dupCatalog.getLast?.map fun t => t.source) = some "B" :=
  ⟨rfl, rfl, rfl⟩

/-- C1 amended: when two connections expose a tool with the same name both
entries exist in the catalog built by `initialize`, and the `processQuery`
dispatch lookup returns the first one registered (first match by name), so
the EARLIEST connection wins. -/
theorem c1_amended (cA cB : ClientConn) (tsA tsB : List SrcTool) (n : String)
    (hA : cA.hasMcpClient = true) (hB : cB.hasMcpClient = true)
    (hta : cA.listTools = .ok tsA) (htb : cB.listTools = .ok tsB)
    (hnA : n ∈ tsA.map SrcTool.name) (hnB : n ∈ tsB.map SrcTool.name) :
    (∃ t ∈ ((UnifiedMCPClient.make [cA, cB]).initAll).getAllTools,
      t.name = n ∧ t.source = cA.identifier) ∧
    (∃ t ∈ ((UnifiedMCPClient.make [cA, cB]).initAll).getAllTools,
      t.name = n ∧ t.source = cB.identifier) ∧
    (∀ t, lookupTool ((UnifiedMCPClient.make [cA, cB]).initAll).getAllTools n = some t →
      t.source = cA.identifier) := by
  have hcat : ((UnifiedMCPClient.make [cA, cB]).initAll).getAllTools =
      tagTools cA tsA ++ tagTools cB tsB := by
    rw [getAllTools_initAll_make]
    rw [initLoop_cons_ok cA [cB] tsA hA hta]
    rw [initLoop_cons_ok cB [] tsB hB htb]
    simp [initLoop]
  refine ⟨?_, ?_, ?_⟩
  · rw [hcat]
    obtain ⟨t, ht, hn2, hs⟩ := exists_name_in_tagTools cA tsA n hnA
    exact ⟨t, List.mem_append_left _ ht, hn2, hs⟩
  · rw [hcat]
    obtain ⟨t, ht, hn2, hs⟩ := exists_name_in_tagTools cB tsB n hnB
    exact ⟨t, List.mem_append_right _ ht, hn2, hs⟩
  · intro t hlook
    rw [hcat, lookupTool_append] at hlook
    have hsome : (lookupTool (tagTools cA tsA) n).isSome := by
      rw [lookupTool, List.find?_isSome]
      obtain ⟨t0, ht0, hn0, _⟩ := exists_name_in_tagTools cA tsA n hnA
      exact ⟨t0, ht0, by simp [hn0]⟩
    obtain ⟨t1, ht1⟩ := Option.isSome_iff_exists.mp hsome
    rw [ht1] at hlook
    simp only [Option.or] at hlook
    have ht1t : t1 = t := by injection hlook
    subst ht1t
    have hmem : t1 ∈ tagTools cA tsA := by
      rw [lookupTool] at ht1
      exact List.mem_of_find?_eq_some ht1
    exact tagTools_source cA tsA t1 hmem

/-- C1 amended witness: the duplicate-tool scenario instantiated. -/
theorem c1_amended_witness :
    (∃ t ∈ dupCatalog, t.name = "dup-tool" ∧ t.source = "A") ∧
    (∃ t ∈ dupCatalog, t.name = "dup-tool" ∧ t.source = "B") ∧
    (∀ t, lookupTool dupCatalog "dup-tool" = some t → t.source = "A") :=
  c1_amended dupConnA dupConnB
    [{ name := "dup-tool", description := some "first copy", schema := 1 }]
    [{ name := "dup-tool", description := some "second copy", schema := 2 }]
    "dup-tool" rfl rfl rfl rfl (by simp) (by simp)

/-- C2: with every connection carrying a client and answering `listTools`,
the catalog after `initialize` is exactly the concatenation, in
connection-list order, of each connection's tool list tagged with its
source identifier (`tagTools`); and a connection whose `listTools` throws
is skipped without aborting the aggregation of the remaining
connections. -/
theorem c2_aggregation (clients : List ClientConn) (toolsOf : ClientConn → List SrcTool) :
    ((∀ c ∈ clients, c.hasMcpClient = true) →
     (∀ c ∈ clients, c.listTools = .ok (toolsOf c)) →
     ((UnifiedMCPClient.make clients).initAll).getAllTools =
       clients.flatMap fun c => tagTools c (toolsOf c)) ∧
    (∀ (c : ClientConn) (rest : List ClientConn),
      c.hasMcpClient = true → c.listTools = .error () →
      ((UnifiedMCPClient.make (c :: rest)).initAll).getAllTools =
        ((UnifiedMCPClient.make rest).initAll).getAllTools) := by
  constructor
  · intro hmcp hok
    rw [getAllTools_initAll_make]
    exact initLoop_fst_all_ok toolsOf clients hmcp hok
  · intro c rest hc he
    rw [getAllTools_initAll_make, getAllTools_initAll_make,
      initLoop_cons_err c rest hc he]

/-- C2 witness: the spec's scenario C shape — `srv1` with one tool and
`srv2` with none aggregate to exactly the tagged concatenation; a failing
connection in front leaves the rest aggregated. -/
theorem c2_aggregation_witness :
    ((UnifiedMCPClient.make [aggConnOne, aggConnTwo]).initAll).getAllTools =
      [aggConnOne, aggConnTwo].flatMap (fun c => tagTools c (aggToolsOf c)) ∧
    ((UnifiedMCPClient.make (aggFailConn :: [aggConnOne])).initAll).getAllTools =
      ((UnifiedMCPClient.make [aggConnOne]).initAll).getAllTools :=
  ⟨(c2_aggregation [aggConnOne, aggConnTwo] aggToolsOf).1
      (by intro c hc; fin_cases hc <;> rfl)
      (by intro c hc; fin_cases hc <;> rfl),
   (c2_aggregation [] aggToolsOf).2 aggFailConn [aggConnOne] rfl rfl⟩

/-- C6 counterexample: the first connection exposes no prompt and the
second exposes one, so the earliest prompt-exposing connection is the
second — but discovery adds nothing (the loop breaks at the first
connection), and the working history starts with just the user query:
the claim that the earliest prompt-exposing connection's messages are
prepended is false on this input. Alone, the second connection would have
contributed its message. -/
theorem c6_counterexample :
    promptDiscovery [quietConn, promptConn] = [] ∧
    promptConn.listPrompts = .ok [{ name := "weather-assistant" }] ∧
    promptDiscovery [promptConn] =
      [{ role := "assistant", content := .str "You are a helpful weather assistant." }] ∧
    preMessages (fun _ => .error ()) [quietConn, promptConn] "hello" =
      [{ role := "user", content := .str "hello" }] :=
  ⟨rfl, rfl, rfl, rfl⟩

/-- C6 amended: prompt discovery consults only the first connection — its
first prompt's messages are prepended exactly when it exposes at least one
prompt with a message-bearing response, nothing is prepended otherwise,
and later connections are never consulted either way. -/
theorem c6_amended (c : ClientConn) (rest rest2 : List ClientConn) :
    promptDiscovery (c :: rest) = promptDiscovery (c :: rest2) ∧
    (∀ p ps msgs, c.listPrompts = .ok (p :: ps) →
      c.getPrompt p.name = .ok (some msgs) →
      promptDiscovery (c :: rest) =
        msgs.map fun pm => { role := pm.role, content := MsgContent.str (pm.text.getD "") }) ∧
    (c.listPrompts = .ok [] → promptDiscovery (c :: rest) = []) := by
  refine ⟨rfl, ?_, ?_⟩
  · intro p ps msgs hlp hgp
    simp [promptDiscovery, promptDiscoveryLoop, hlp, hgp]
  · intro hlp
    simp [promptDiscovery, promptDiscoveryLoop, hlp]

/-- C6 amended witness: the prompt-bearing connection first yields its
message whatever follows; the promptless connection first yields
nothing. -/
theorem c6_amended_witness :
    promptDiscovery [promptConn, quietConn] = promptDiscovery [promptConn] ∧
    promptDiscovery [promptConn, quietConn] =
      [{ role := "assistant", content := .str "You are a helpful weather assistant." }] ∧
    promptDiscovery [quietConn, promptConn] = [] :=
  ⟨(c6_amended promptConn [quietConn] []).1,
   (c6_amended promptConn [quietConn] []).2.1 { name := "weather-assistant" } []
      [{ role := "assistant", text := some "You are a helpful weather assistant." }] rfl rfl,
   (c6_amended quietConn [promptConn] []).2.2 rfl⟩

/-- C5 counterexample: the first completion calls the unregistered tool
"ghost"; `processQuery` converts it into an error `tool_result`, completes
a second time and returns "all good" — not the fixed apology string — so
the claim that a tool-not-found failure is converted into the apology is
false on this input. -/
theorem c5_counterexample :
    (UnifiedMCPClient.make []).processQuery ghostToolOracle (fun _ => .error ()) "hi" =
      "all good" ∧
    "all good" ≠ apologyString :=
  ⟨rfl, by decide⟩

/-- C5 amended: `processQuery` is a total function of its oracles (never
raises): a failure of either completion call is caught and converted into
the fixed apology string; a tool call whose name is not in the catalog is
converted into an error `tool_result` fed back to the model, not into the
apology; and when both completion calls succeed the result is the
newline-join of the text segments of the two responses. -/
theorem c5_amended :
    (∀ (complete : CompleteOracle) (jsonParse : String → Except Unit JsonData)
       (u : UnifiedMCPClient) (query : String),
      complete (preMessages jsonParse u.clients query) (some (toAnthTools u.unifiedTools)) =
        .error () →
      u.processQuery complete jsonParse query = apologyString) ∧
    (∀ (unifiedTools : List UnifiedTool) (id n args : String),
      lookupTool unifiedTools n = none →
      dispatchOne unifiedTools (id, n, args) =
        { tool_use_id := id, content := "Error: Tool " ++ n ++ " not found" }) ∧
    (∀ (complete : CompleteOracle) (jsonParse : String → Except Unit JsonData)
       (u : UnifiedMCPClient) (query : String) (blocks : List ContentBlock),
      complete (preMessages jsonParse u.clients query) (some (toAnthTools u.unifiedTools)) =
        .ok blocks →
      toolUses blocks ≠ [] →
      complete (secondMessages u.unifiedTools (preMessages jsonParse u.clients query) blocks)
        none = .error () →
      u.processQuery complete jsonParse query = apologyString) ∧
    (∀ (complete : CompleteOracle) (jsonParse : String → Except Unit JsonData)
       (u : UnifiedMCPClient) (query : String) (blocks blocks2 : List ContentBlock),
      complete (preMessages jsonParse u.clients query) (some (toAnthTools u.unifiedTools)) =
        .ok blocks →
      toolUses blocks ≠ [] →
      complete (secondMessages u.unifiedTools (preMessages jsonParse u.clients query) blocks)
        none = .ok blocks2 →
      u.processQuery complete jsonParse query =
        String.intercalate "\n" (textSegments blocks ++ textSegments blocks2)) := by
  refine ⟨?_, ?_, ?_, ?_⟩
  · intro complete jsonParse u query h
    simp [UnifiedMCPClient.processQuery, mainBlock, h]
  · intro unifiedTools id n args h
    simp [dispatchOne, h]
  · intro complete jsonParse u query blocks h1 hne h2
    simp [UnifiedMCPClient.processQuery, mainBlock, h1, h2, List.length_eq_zero, hne]
  · intro complete jsonParse u query blocks blocks2 h1 hne h2
    simp [UnifiedMCPClient.processQuery, mainBlock, h1, h2, List.length_eq_zero, hne]

/-- C5 amended witness: a failing completion yields the apology; an
unknown tool name yields the error `tool_result`; the ghost-tool run
returns the second response's text. -/
theorem c5_amended_witness :
    (UnifiedMCPClient.make []).processQuery (fun _ _ => .error ()) (fun _ => .error ())
      "hi" = apologyString ∧
    dispatchOne [] ("id1", "ghost", "input") =
      { tool_use_id := "id1", content := "Error: Tool ghost not found" } ∧
    (UnifiedMCPClient.make []).processQuery ghostToolOracle (fun _ => .error ()) "hi" =
      String.intercalate "\n"
        (textSegments [.toolUse "id1" "ghost" "input"] ++ textSegments [.text "all good"]) :=
  ⟨c5_amended.1 (fun _ _ => .error ()) (fun _ => .error ())
      (UnifiedMCPClient.make []) "hi" rfl,
   c5_amended.2.1 [] "id1" "ghost" "input" rfl,
   c5_amended.2.2.2 ghostToolOracle (fun _ => .error ()) (UnifiedMCPClient.make []) "hi"
      [.toolUse "id1" "ghost" "input"] [.text "all good"] rfl (by decide) rfl⟩

end Spec2Proof
